import Mathlib

/-!
Shallow embedding of the Flask blog application
(`main.py` request handlers, `models.py` entities, `forms.py` WTForms
validation) and proofs about its authorization/moderation logic.

The relational store is modelled as lists of rows; the session is an
`Option Nat` holding the `user_id` key when present.  Each request
handler becomes a pure function from its inputs and the current store to
a result value (the response the handler produces) paired with the store
after the handler's single commit.  Values generated by the database at
insert time (fresh primary keys, timestamps) are passed in as explicit
parameters.
-/

namespace FlaskBlog

/-- `User` model from `models.py`: id (primary key), unique email,
password hash, `is_blacklisted` (default false), `is_admin`
(default false). -/
structure User where
  id : Nat
  email : String
  password : String
  is_blacklisted : Bool
  is_admin : Bool
deriving DecidableEq, Repr

/-- `Post` model from `models.py`: id, title, content, image_url,
optional user_id foreign key, creation timestamp.  The `comments`
relationship carries `cascade="all, delete-orphan"`. -/
structure Post where
  id : Nat
  title : String
  content : String
  image_url : String
  user_id : Option Nat
  created_at : Nat
deriving DecidableEq, Repr

/-- `Comment` model from `models.py`: id, text, user_id and post_id
foreign keys, creation timestamp. -/
structure Comment where
  id : Nat
  text : String
  user_id : Nat
  post_id : Nat
  created_at : Nat
deriving DecidableEq, Repr

/-- The relational store: the three tables of the schema. -/
structure DB where
  users : List User
  posts : List Post
  comments : List Comment
deriving DecidableEq, Repr

/-- `User.query.get(uid)`: primary-key lookup in the user table. -/
def findUser (db : DB) (uid : Nat) : Option User :=
  db.users.find? (fun u => u.id == uid)

/-- `Post.query.get(pid)`: primary-key lookup in the post table. -/
def findPost (db : DB) (pid : Nat) : Option Post :=
  db.posts.find? (fun p => p.id == pid)

/-- `Comment.query.get(cid)`: primary-key lookup in the comment table. -/
def findComment (db : DB) (cid : Nat) : Option Comment :=
  db.comments.find? (fun c => c.id == cid)

/-! ### Form validation (`forms.py`) -/

/-- WTForms `InputRequired()`: the submitted raw value must be
non-empty. -/
def inputRequired (s : String) : Bool :=
  !(s == "")

/-- WTForms `Length(min=lo, max=hi)` on a string field. -/
def lengthBetween (lo hi : Nat) (s : String) : Bool :=
  lo ≤ s.length && s.length ≤ hi

/-- `PostForm` validation: `title` and `content` carry `InputRequired()`;
`image_url` has no validators. -/
def postForm_validate (title content image_url : String) : Bool :=
  inputRequired title && inputRequired content

/-- `CommentForm` validation: `text` carries `InputRequired()`. -/
def commentForm_validate (text : String) : Bool :=
  inputRequired text

/-- `RegistrationForm` validation: `email` carries `InputRequired()` and
`Email()` (the format check of the external `Email()` validator is passed
in as `email_format_ok`); `password` carries `InputRequired()` and
`Length(min=5, max=50)`. -/
def registrationForm_validate (email : String) (email_format_ok : Bool)
    (password : String) : Bool :=
  inputRequired email && email_format_ok &&
    inputRequired password && lengthBetween 5 50 password

/-- `werkzeug.security.generate_password_hash`: an external collaborator
(spec places password hashing primitives out of scope), modelled as the
stored credential string itself; no claim depends on its value. -/
def generate_password_hash (password : String) : String :=
  password

/-! ### `register` handler (`main.py`) -/

/-- Responses the `register` handler can produce. -/
inductive RegisterRes where
  | redirectHome
  | emailInUse
  | registered
  | renderForm
deriving DecidableEq, Repr

/-- The `/register` handler: redirect home when already logged in;
on a valid submission, reject a duplicate email, otherwise insert a new
user whose `is_admin` is true exactly when `User.query.count() == 0`
at that instant. -/
def register (s : Option Nat) (submitted : Bool) (email : String)
    (email_format_ok : Bool) (password : String) (new_uid : Nat)
    (db : DB) : RegisterRes × DB :=
  if s.isSome then
    (.redirectHome, db)
  else if submitted && registrationForm_validate email email_format_ok password then
    match db.users.find? (fun u => u.email == email) with
    | some _ => (.emailInUse, db)
    | none =>
      let is_first_user : Bool := db.users.length == 0
      let new_user : User :=
        { id := new_uid
          email := email
          password := generate_password_hash password
          is_blacklisted := false
          is_admin := is_first_user }
      (.registered, { db with users := db.users ++ [new_user] })
  else
    (.renderForm, db)

/-! ### `get_post` handler (`main.py`): post view + comment submission -/

/-- Responses the `get_post` handler can produce.  `blocked`, `duplicate`
and `added` are redirects back to the post page (carrying the redirect's
`post_id`); `serverError` is the 500 raised when the session's `user_id`
has no user row and `user.is_blacklisted` is evaluated on `None`;
`render` covers a GET or an invalid/unauthenticated submission. -/
inductive GetPostRes where
  | notFound
  | serverError
  | blocked (pid : Nat)
  | duplicate (pid : Nat)
  | added (pid : Nat)
  | render
deriving DecidableEq, Repr

/-- The `/post_<post_id>` handler.  404 on a missing post; on a valid
comment submission with a session: a blacklisted user is blocked, a
non-admin with an existing comment on this post is turned away, and
otherwise a new `Comment` row is inserted. -/
def get_post (s : Option Nat) (post_id : Nat) (submitted : Bool)
    (text : String) (new_cid now : Nat) (db : DB) : GetPostRes × DB :=
  match findPost db post_id with
  | none => (.notFound, db)
  | some p =>
    match s with
    | none => (.render, db)
    | some uid =>
      if submitted && commentForm_validate text then
        match findUser db uid with
        | none => (.serverError, db)
        | some user =>
          if user.is_blacklisted then
            (.blocked post_id, db)
          else if !user.is_admin &&
              (db.comments.any (fun c => c.user_id == uid && c.post_id == p.id)) then
            (.duplicate post_id, db)
          else
            (.added post_id,
              { db with comments := db.comments ++
                  [{ id := new_cid, text := text, user_id := uid,
                     post_id := p.id, created_at := now }] })
      else (.render, db)

/-! ### `create_post` handler (`main.py`) -/

/-- Responses the `create_post` handler can produce. -/
inductive CreatePostRes where
  | loginRedirect
  | forbidden
  | created
  | renderForm
deriving DecidableEq, Repr

/-- The `/create_post` handler: login required, then admin required,
then on a valid form a new `Post` row is inserted (its `user_id` is not
set by the handler). -/
def create_post (s : Option Nat) (submitted : Bool)
    (title content image_url : String) (new_pid now : Nat)
    (db : DB) : CreatePostRes × DB :=
  match s with
  | none => (.loginRedirect, db)
  | some uid =>
    match findUser db uid with
    | none => (.forbidden, db)
    | some current_user =>
      if !current_user.is_admin then
        (.forbidden, db)
      else if submitted && postForm_validate title content image_url then
        (.created,
          { db with posts := db.posts ++
              [{ id := new_pid, title := title, content := content,
                 image_url := image_url, user_id := none,
                 created_at := now }] })
      else (.renderForm, db)

/-! ### `delete_comment` handler (`main.py`) -/

/-- Responses the `delete_comment` handler can produce; `forbidden` and
`deleted` redirect to the post page of the `post_id` path parameter. -/
inductive DelCommentRes where
  | loginRedirect
  | notFound
  | forbidden (pid : Nat)
  | deleted (pid : Nat)
deriving DecidableEq, Repr

/-- The `/delete_comment/<post_id>/<comment_id>` handler: login
required; 404 on a missing comment; a comment whose `user_id` differs
from the session is refused; otherwise the row is deleted.  Note the
handler never reads the post table: `post_id` only names the redirect
target. -/
def delete_comment (s : Option Nat) (post_id comment_id : Nat)
    (db : DB) : DelCommentRes × DB :=
  match s with
  | none => (.loginRedirect, db)
  | some uid =>
    match findComment db comment_id with
    | none => (.notFound, db)
    | some comment =>
      if comment.user_id != uid then
        (.forbidden post_id, db)
      else
        (.deleted post_id,
          { db with comments := db.comments.filter (fun c => !(c.id == comment_id)) })

/-- Whether a `delete_comment` response is the successful-deletion
redirect (ignoring the redirect's target). -/
def DelCommentRes.isDeleted : DelCommentRes → Bool
  | .deleted _ => true
  | _ => false

/-! ### `delete_post` handler (`main.py`) -/

/-- Responses the `delete_post` handler can produce. -/
inductive DelPostRes where
  | loginRedirect
  | forbidden
  | notFound
  | deleted
deriving DecidableEq, Repr

/-- The `/delete_post/<post_id>` handler: login required, then admin
required, then 404 on a missing post; deleting the post cascades
(`cascade="all, delete-orphan"` on `Post.comments`) to every comment
whose `post_id` references it. -/
def delete_post (s : Option Nat) (post_id : Nat) (db : DB) :
    DelPostRes × DB :=
  match s with
  | none => (.loginRedirect, db)
  | some uid =>
    match findUser db uid with
    | none => (.forbidden, db)
    | some current_user =>
      if !current_user.is_admin then
        (.forbidden, db)
      else
        match findPost db post_id with
        | none => (.notFound, db)
        | some p =>
          (.deleted,
            { db with
                posts := db.posts.filter (fun q => !(q.id == p.id))
                comments := db.comments.filter (fun c => !(c.post_id == p.id)) })

/-! ### `edit_post` handler (`main.py`) -/

/-- Responses the `edit_post` handler can produce. -/
inductive EditPostRes where
  | notFound
  | loginRedirect
  | forbidden
  | updated
  | renderForm
deriving DecidableEq, Repr

/-- The `/edit_post/<post_id>` handler: the post is fetched first
(404 before the login check), then login and admin are required, then a
valid form overwrites the post's title, content and image_url. -/
def edit_post (s : Option Nat) (post_id : Nat) (submitted : Bool)
    (title content image_url : String) (db : DB) : EditPostRes × DB :=
  match findPost db post_id with
  | none => (.notFound, db)
  | some p =>
    match s with
    | none => (.loginRedirect, db)
    | some uid =>
      match findUser db uid with
      | none => (.forbidden, db)
      | some current_user =>
        if !current_user.is_admin then
          (.forbidden, db)
        else if submitted && postForm_validate title content image_url then
          (.updated,
            { db with posts := db.posts.map (fun q =>
                if q.id == p.id then
                  { q with title := title, content := content,
                           image_url := image_url }
                else q) })
        else (.renderForm, db)

/-! ### `toggle_blacklist` handler (`main.py`) -/

/-- Responses the `toggle_blacklist` handler can produce.
`serverError` is the 500 raised when the session's `user_id` has no user
row and `.is_admin` is evaluated on `None`. -/
inductive ToggleRes where
  | unauthorized
  | serverError
  | notFound
  | toggled
deriving DecidableEq, Repr

/-- Flip `is_blacklisted` on the row whose primary key is `target`
(what `user.is_blacklisted = not user.is_blacklisted` commits). -/
def flipBlacklist (target : Nat) (u : User) : User :=
  if u.id == target then { u with is_blacklisted := !u.is_blacklisted } else u

/-- The `/toggle_blacklist/<user_id>` handler: an anonymous or
non-admin session is turned away, 404 on a missing target user, and
otherwise the target's `is_blacklisted` flag is flipped. -/
def toggle_blacklist (s : Option Nat) (user_id : Nat) (db : DB) :
    ToggleRes × DB :=
  match s with
  | none => (.unauthorized, db)
  | some uid =>
    match findUser db uid with
    | none => (.serverError, db)
    | some current_user =>
      if !current_user.is_admin then
        (.unauthorized, db)
      else
        match findUser db user_id with
        | none => (.notFound, db)
        | some _ =>
          (.toggled, { db with users := db.users.map (flipBlacklist user_id) })

/-! ### Authorization rules transcribed from the spec (§4.1), for
refinement comparison against the handlers above -/

/-- Transcribed from the spec: `canCreateComment(identity, post)` → true
iff identity is authenticated, not blacklisted, AND (identity is admin OR
no existing comment by identity on post). -/
def canCreateComment (db : DB) (s : Option Nat) (post_id : Nat) : Bool :=
  match s with
  | none => false
  | some uid =>
    match findUser db uid with
    | none => false
    | some u =>
      !u.is_blacklisted &&
        (u.is_admin ||
          !(db.comments.any (fun c => c.user_id == uid && c.post_id == post_id)))

/-- Transcribed from the spec: `canCreatePost(identity)` → true iff
identity is an authenticated admin. -/
def canCreatePost (db : DB) (s : Option Nat) : Bool :=
  match s with
  | none => false
  | some uid =>
    match findUser db uid with
    | none => false
    | some u => u.is_admin

/-- Transcribed from the spec: `canEditPost(identity)` → true iff
identity is an authenticated admin. -/
def canEditPost (db : DB) (s : Option Nat) : Bool :=
  canCreatePost db s

/-- Transcribed from the spec: `canDeletePost(identity)` → true iff
identity is an authenticated admin. -/
def canDeletePost (db : DB) (s : Option Nat) : Bool :=
  canCreatePost db s

/-- Transcribed from the spec: `canDeleteComment(identity, comment)` →
true iff identity is authenticated and identity is the comment's
author. -/
def canDeleteComment (s : Option Nat) (c : Comment) : Bool :=
  match s with
  | none => false
  | some uid => c.user_id == uid

/-! ### Shared helper lemmas -/

/-- A successful primary-key lookup in the post table returns a row
carrying the looked-up key. -/
theorem findPost_id {db : DB} {pid : Nat} {p : Post}
    (h : findPost db pid = some p) : p.id = pid := by
  have := List.find?_some h
  simpa using this

/-- A successful primary-key lookup in the user table returns a row
carrying the looked-up key. -/
theorem findUser_id {db : DB} {uid : Nat} {u : User}
    (h : findUser db uid = some u) : u.id = uid := by
  have := List.find?_some h
  simpa using this

/-- A successful primary-key lookup in the comment table returns a row
carrying the looked-up key. -/
theorem findComment_id {db : DB} {cid : Nat} {c : Comment}
    (h : findComment db cid = some c) : c.id = cid := by
  have := List.find?_some h
  simpa using this

/-- The row found by a primary-key lookup is in the comment table. -/
theorem findComment_mem {db : DB} {cid : Nat} {c : Comment}
    (h : findComment db cid = some c) : c ∈ db.comments :=
  List.mem_of_find?_eq_some h

/-- Flipping a blacklist flag twice restores the row. -/
theorem flipBlacklist_flipBlacklist (t : Nat) (u : User) :
    flipBlacklist t (flipBlacklist t u) = u := by
  unfold flipBlacklist
  by_cases h : (u.id == t) = true
  · simp [h]
  · simp [h]

/-- `flipBlacklist` does not change a row's primary key. -/
theorem flipBlacklist_id (t : Nat) (u : User) :
    (flipBlacklist t u).id = u.id := by
  unfold flipBlacklist
  by_cases h : (u.id == t) = true
  · simp [h]
  · simp [h]

/-- `find?` commutes with a `map` that preserves the predicate. -/
theorem find?_map_of_pred_invariant {α : Type} (f : α → α) (q : α → Bool)
    (hq : ∀ a, q (f a) = q a) :
    ∀ l : List α, (l.map f).find? q = (l.find? q).map f := by
  intro l
  induction l with
  | nil => rfl
  | cons a l ih =>
    by_cases h : q a = true
    · simp [List.find?, hq, h]
    · simp only [Bool.not_eq_true] at h
      simp [List.find?, hq, h, ih]

end FlaskBlog

namespace FlaskBlog

/-! ### Claim theorems -/

/-- C2: for every successful registration, the new User's `is_admin`
flag is true iff the User table contained zero rows at that instant; the
first registered account is admin and every subsequent registration
yields `is_admin = false`. -/
theorem C2_first_registrant_is_admin (s : Option Nat) (submitted : Bool)
    (email : String) (email_format_ok : Bool) (password : String)
    (new_uid : Nat) (db : DB)
    (h : (register s submitted email email_format_ok password new_uid db).1 =
      .registered) :
    ∃ u : User,
      (register s submitted email email_format_ok password new_uid db).2 =
        { db with users := db.users ++ [u] } ∧
      (u.is_admin = true ↔ db.users.length = 0) := by
  cases s with
  | some uid => simp [register] at h
  | none =>
    by_cases hf : (submitted && registrationForm_validate email email_format_ok password) = true
    · cases he : db.users.find? (fun u => u.email == email) with
      | some w => simp [register, hf, he] at h
      | none =>
        refine ⟨{ id := new_uid, email := email,
                  password := generate_password_hash password,
                  is_blacklisted := false,
                  is_admin := db.users.length == 0 }, ?_, ?_⟩
        · simp [register, hf, he]
        · simp
    · simp [register, hf] at h

/-- Witness for C2: registering on an empty store succeeds and the new
account is admin. -/
theorem C2_witness :
    ∃ u : User,
      (register none true "first@blog.com" true "12345" 1 (DB.mk [] [] [])).2 =
        { DB.mk [] [] [] with users := (DB.mk [] [] []).users ++ [u] } ∧
      (u.is_admin = true ↔ (DB.mk [] [] []).users.length = 0) :=
  C2_first_registrant_is_admin none true "first@blog.com" true "12345" 1
    (DB.mk [] [] []) (by decide)

end FlaskBlog

namespace FlaskBlog

/-- C1: on a valid comment submission for an existing post, a new
Comment row is added iff the session identity is authenticated, its User
is not blacklisted, and that User is an admin or has no existing comment
on the post (the spec's `canCreateComment`); a blacklisted User's
attempt is always rejected, even with no prior comment on the post. -/
theorem C1_comment_creation_rule (s : Option Nat) (post_id : Nat)
    (text : String) (new_cid now : Nat) (db : DB) (p : Post)
    (hp : findPost db post_id = some p) (htext : text ≠ "") :
    ((get_post s post_id true text new_cid now db).1 = .added post_id ↔
      canCreateComment db s post_id = true)
    ∧ (∀ uid, s = some uid → canCreateComment db s post_id = true →
        get_post s post_id true text new_cid now db =
          (.added post_id,
            { db with comments := db.comments ++
                [{ id := new_cid, text := text, user_id := uid,
                   post_id := post_id, created_at := now }] }))
    ∧ (canCreateComment db s post_id = false →
        (get_post s post_id true text new_cid now db).2 = db)
    ∧ (∀ uid u, s = some uid → findUser db uid = some u →
        u.is_blacklisted = true →
        get_post s post_id true text new_cid now db = (.blocked post_id, db)) := by
  have hid : p.id = post_id := findPost_id hp
  have hv : commentForm_validate text = true := by
    simp [commentForm_validate, inputRequired, htext]
  cases s with
  | none => simp [get_post, hp, canCreateComment]
  | some uid =>
    cases hu : findUser db uid with
    | none =>
      simp [get_post, hp, hv, hu, canCreateComment]
      intro uid₁ u₁ h1 h2
      subst h1
      simp [hu] at h2
    | some u =>
      cases hb : u.is_blacklisted with
      | true => simp [get_post, hp, hv, hu, canCreateComment, hb]
      | false =>
        have hbl : ∀ uid₁ u₁, uid = uid₁ → findUser db uid₁ = some u₁ →
            u₁.is_blacklisted = false := by
          intro uid₁ u₁ h1 h2
          subst h1
          rw [hu] at h2
          injection h2 with h3
          subst h3
          exact hb
        cases ha : u.is_admin with
        | true =>
          simp [get_post, hp, hv, hu, canCreateComment, hb, ha, hid]
          exact hbl
        | false =>
          cases hex : db.comments.any (fun c => c.user_id == uid && c.post_id == post_id) with
          | true =>
            simp [get_post, hp, hv, hu, canCreateComment, hb, ha, hid, hex]
            exact hbl
          | false =>
            simp [get_post, hp, hv, hu, canCreateComment, hb, ha, hid, hex]
            exact hbl

/-- Witness for C1: an admin with no prior comment comments on an
existing post and the handler's outcome matches `canCreateComment`. -/
theorem C1_witness :
    (get_post (some 1) 1 true "nice" 7 3
        (DB.mk [User.mk 1 "admin@blog.com" "pw" false true]
          [Post.mk 1 "Hello" "World" "" none 0] [])).1 = .added 1 ↔
      canCreateComment
        (DB.mk [User.mk 1 "admin@blog.com" "pw" false true]
          [Post.mk 1 "Hello" "World" "" none 0] []) (some 1) 1 = true :=
  (C1_comment_creation_rule (some 1) 1 "nice" 7 3
    (DB.mk [User.mk 1 "admin@blog.com" "pw" false true]
      [Post.mk 1 "Hello" "World" "" none 0] [])
    (Post.mk 1 "Hello" "World" "" none 0) rfl (by decide)).1

/-- C3: a comment-deletion request deletes the Comment iff the session
is authenticated as the comment's author (the spec's
`canDeleteComment`); any other identity — admins included — is rejected
and the Comment remains in the store. -/
theorem C3_delete_comment_author_only (s : Option Nat)
    (post_id comment_id : Nat) (db : DB) (c : Comment)
    (hc : findComment db comment_id = some c) :
    (((delete_comment s post_id comment_id db).1).isDeleted =
      canDeleteComment s c)
    ∧ (s = some c.user_id →
        delete_comment s post_id comment_id db =
          (.deleted post_id,
           { db with comments :=
               db.comments.filter (fun x => !(x.id == comment_id)) }))
    ∧ (∀ uid, s = some uid → uid ≠ c.user_id →
        delete_comment s post_id comment_id db = (.forbidden post_id, db) ∧
        c ∈ (delete_comment s post_id comment_id db).2.comments)
    ∧ (s = none →
        delete_comment s post_id comment_id db = (.loginRedirect, db)) := by
  cases s with
  | none => simp [delete_comment, canDeleteComment, DelCommentRes.isDeleted]
  | some uid =>
    by_cases h : c.user_id = uid
    · subst h
      simp [delete_comment, hc, canDeleteComment, DelCommentRes.isDeleted]
    · have hne : (c.user_id != uid) = true := by simp [bne, h]
      simp [delete_comment, hc, canDeleteComment, DelCommentRes.isDeleted, hne, h]
      constructor
      · simp [bne] at hne
        exact fun h2 => absurd h2.symm hne
      · exact fun _ => findComment_mem hc

/-- Witness for C3: the author's session deletes their own comment. -/
theorem C3_witness :
    delete_comment (some 2) 1 1 (DB.mk [] [] [Comment.mk 1 "hi" 2 1 0]) =
      (.deleted 1,
       { DB.mk [] [] [Comment.mk 1 "hi" 2 1 0] with comments :=
           ((DB.mk [] [] [Comment.mk 1 "hi" 2 1 0]).comments.filter
             (fun x => !(x.id == 1))) }) :=
  (C3_delete_comment_author_only (some 2) 1 1
    (DB.mk [] [] [Comment.mk 1 "hi" 2 1 0]) (Comment.mk 1 "hi" 2 1 0)
    rfl).2.1 rfl

/-- C9: the comment-deletion outcome depends only on the comment and the
session, never on the `post_id` path parameter: the resulting store and
the success/failure of the operation are the same for any two `post_id`
values, and the comment's author succeeds at any `post_id`, including
one that is not the post the comment belongs to. -/
theorem C9_delete_comment_ignores_post_id (s : Option Nat)
    (p₁ p₂ comment_id : Nat) (db : DB) :
    ((delete_comment s p₁ comment_id db).2 =
      (delete_comment s p₂ comment_id db).2)
    ∧ (((delete_comment s p₁ comment_id db).1).isDeleted =
        ((delete_comment s p₂ comment_id db).1).isDeleted)
    ∧ (∀ c : Comment, findComment db comment_id = some c →
        s = some c.user_id →
        delete_comment s p₁ comment_id db =
          (.deleted p₁,
           { db with comments :=
               db.comments.filter (fun x => !(x.id == comment_id)) })) := by
  cases s with
  | none => simp [delete_comment]
  | some uid =>
    cases hc : findComment db comment_id with
    | none => simp [delete_comment, hc]
    | some c =>
      by_cases h : c.user_id = uid
      · subst h
        simp [delete_comment, hc, DelCommentRes.isDeleted]
      · have hne : (c.user_id != uid) = true := by simp [bne, h]
        simp [delete_comment, hc, DelCommentRes.isDeleted, hne]
        intro h1
        exact absurd h1.symm h

/-- Witness for C9: the author deletes their comment (which belongs to
post 1) through a request whose path names post 99. -/
theorem C9_witness :
    delete_comment (some 2) 99 1 (DB.mk [] [] [Comment.mk 1 "bye" 2 1 0]) =
      (.deleted 99,
       { DB.mk [] [] [Comment.mk 1 "bye" 2 1 0] with comments :=
           ((DB.mk [] [] [Comment.mk 1 "bye" 2 1 0]).comments.filter
             (fun x => !(x.id == 1))) }) :=
  (C9_delete_comment_ignores_post_id (some 2) 99 5 1
    (DB.mk [] [] [Comment.mk 1 "bye" 2 1 0])).2.2
    (Comment.mk 1 "bye" 2 1 0) rfl rfl

end FlaskBlog

namespace FlaskBlog

/-- C4: a successful post deletion removes the Post and cascades to
every Comment referencing it: afterwards no Comment in the store
references the deleted Post, comments of other posts survive, and the
user table is untouched. -/
theorem C4_delete_post_cascades (s : Option Nat) (post_id : Nat) (db : DB)
    (h : (delete_post s post_id db).1 = .deleted) :
    (∀ c ∈ (delete_post s post_id db).2.comments, c.post_id ≠ post_id)
    ∧ (∀ q ∈ (delete_post s post_id db).2.posts, q.id ≠ post_id)
    ∧ (∀ c ∈ db.comments, c.post_id ≠ post_id →
        c ∈ (delete_post s post_id db).2.comments)
    ∧ (delete_post s post_id db).2.users = db.users := by
  cases s with
  | none => simp [delete_post] at h
  | some uid =>
    cases hu : findUser db uid with
    | none => simp [delete_post, hu] at h
    | some u =>
      cases ha : u.is_admin with
      | false => simp [delete_post, hu, ha] at h
      | true =>
        cases hp : findPost db post_id with
        | none => simp [delete_post, hu, ha, hp] at h
        | some p =>
          have hid : p.id = post_id := findPost_id hp
          refine ⟨?_, ?_, ?_, ?_⟩
          · intro c hc
            simp [delete_post, hu, ha, hp, List.mem_filter, hid] at hc
            exact hc.2
          · intro q hq
            simp [delete_post, hu, ha, hp, List.mem_filter, hid] at hq
            exact hq.2
          · intro c hc hcp
            simp [delete_post, hu, ha, hp, List.mem_filter, hid]
            exact ⟨hc, hcp⟩
          · simp [delete_post, hu, ha, hp]

/-- Witness for C4: an admin deletes post 1; the comment on post 2
survives the cascade. -/
theorem C4_witness :
    Comment.mk 2 "y" 2 2 0 ∈
      (delete_post (some 1) 1
        (DB.mk [User.mk 1 "a@b.c" "pw" false true]
          [Post.mk 1 "t" "c" "" none 0]
          [Comment.mk 1 "x" 2 1 0, Comment.mk 2 "y" 2 2 0])).2.comments :=
  (C4_delete_post_cascades (some 1) 1
    (DB.mk [User.mk 1 "a@b.c" "pw" false true]
      [Post.mk 1 "t" "c" "" none 0]
      [Comment.mk 1 "x" 2 1 0, Comment.mk 2 "y" 2 2 0])
    (by decide)).2.2.1 (Comment.mk 2 "y" 2 2 0) (by decide) (by decide)

/-- C6: a valid post-creation, post-edit, or post-deletion request
performs its mutation iff the session is an authenticated admin (the
spec's `canCreatePost` / `canEditPost` / `canDeletePost`); any other
requester is denied and the store is unchanged. -/
theorem C6_post_mutation_admin_only (s : Option Nat)
    (title content image_url : String) (new_pid now post_id : Nat)
    (db : DB) (p : Post)
    (hform : postForm_validate title content image_url = true)
    (hp : findPost db post_id = some p) :
    (((create_post s true title content image_url new_pid now db).1 = .created)
      ↔ canCreatePost db s = true)
    ∧ (canCreatePost db s = true →
        create_post s true title content image_url new_pid now db =
          (.created, { db with posts := db.posts ++
              [Post.mk new_pid title content image_url none now] }))
    ∧ (canCreatePost db s = false →
        (create_post s true title content image_url new_pid now db).2 = db)
    ∧ (((edit_post s post_id true title content image_url db).1 = .updated)
      ↔ canEditPost db s = true)
    ∧ (canEditPost db s = true →
        edit_post s post_id true title content image_url db =
          (.updated, { db with posts := db.posts.map (fun q =>
              if q.id == post_id then
                { q with title := title, content := content,
                         image_url := image_url }
              else q) }))
    ∧ (canEditPost db s = false →
        (edit_post s post_id true title content image_url db).2 = db)
    ∧ (((delete_post s post_id db).1 = .deleted) ↔ canDeletePost db s = true)
    ∧ (canDeletePost db s = true →
        delete_post s post_id db =
          (.deleted, { db with
              posts := db.posts.filter (fun q => !(q.id == post_id))
              comments := db.comments.filter (fun c => !(c.post_id == post_id)) }))
    ∧ (canDeletePost db s = false → (delete_post s post_id db).2 = db) := by
  have hid : p.id = post_id := findPost_id hp
  cases s with
  | none =>
    simp [create_post, edit_post, delete_post, canCreatePost, canEditPost,
      canDeletePost, hp]
  | some uid =>
    cases hu : findUser db uid with
    | none =>
      simp [create_post, edit_post, delete_post, canCreatePost, canEditPost,
        canDeletePost, hp, hu]
    | some u =>
      cases ha : u.is_admin with
      | false =>
        simp [create_post, edit_post, delete_post, canCreatePost, canEditPost,
          canDeletePost, hp, hu, ha]
      | true =>
        simp [create_post, edit_post, delete_post, canCreatePost, canEditPost,
          canDeletePost, hp, hu, ha, hform, hid]

/-- Witness for C6: an authenticated admin creates a post through a
valid form and the new row is appended. -/
theorem C6_witness :
    create_post (some 1) true "T" "C" "" 2 5
        (DB.mk [User.mk 1 "a@b.c" "pw" false true]
          [Post.mk 1 "t" "c" "" none 0] []) =
      (.created,
       { DB.mk [User.mk 1 "a@b.c" "pw" false true]
           [Post.mk 1 "t" "c" "" none 0] [] with posts :=
           ((DB.mk [User.mk 1 "a@b.c" "pw" false true]
             [Post.mk 1 "t" "c" "" none 0] []).posts ++
             [Post.mk 2 "T" "C" "" none 5]) }) :=
  (C6_post_mutation_admin_only (some 1) "T" "C" "" 2 5 1
    (DB.mk [User.mk 1 "a@b.c" "pw" false true]
      [Post.mk 1 "t" "c" "" none 0] [])
    (Post.mk 1 "t" "c" "" none 0) (by decide) rfl).2.1 (by decide)

/-- `flipBlacklist` does not change a row's admin flag. -/
theorem flipBlacklist_is_admin (t : Nat) (u : User) :
    (flipBlacklist t u).is_admin = u.is_admin := by
  unfold flipBlacklist
  by_cases h : (u.id == t) = true
  · simp [h]
  · simp [h]

/-- A list is `Forall₂`-related to its image under `f` whenever every
element is related to its own image. -/
theorem forall₂_map_of_rel {α : Type} (R : α → α → Prop) (f : α → α)
    (h : ∀ a, R a (f a)) : ∀ l : List α, List.Forall₂ R l (l.map f)
  | [] => List.Forall₂.nil
  | a :: l => List.Forall₂.cons (h a) (forall₂_map_of_rel R f h l)

/-- Mapping `flipBlacklist` twice over the user table restores it. -/
theorem map_flipBlacklist_flipBlacklist (t : Nat) :
    ∀ l : List User, (l.map (flipBlacklist t)).map (flipBlacklist t) = l
  | [] => rfl
  | u :: l => by
    simp only [List.map_cons, flipBlacklist_flipBlacklist,
      map_flipBlacklist_flipBlacklist t l]

/-- C10: an admin-invoked blacklist toggle on an existing target user
succeeds, leaves posts and comments untouched, rewrites the user table
row-by-row changing nothing but the target's `is_blacklisted` flag
(which it negates), and a second toggle restores the store exactly. -/
theorem C10_toggle_blacklist_frame_involution (s : Option Nat)
    (auid target : Nat) (db : DB) (a t0 : User) (hs : s = some auid)
    (ha : findUser db auid = some a) (hadm : a.is_admin = true)
    (ht : findUser db target = some t0) :
    ((toggle_blacklist s target db).1 = .toggled)
    ∧ ((toggle_blacklist s target db).2.posts = db.posts)
    ∧ ((toggle_blacklist s target db).2.comments = db.comments)
    ∧ List.Forall₂ (fun u v : User =>
        v.id = u.id ∧ v.email = u.email ∧ v.password = u.password ∧
        v.is_admin = u.is_admin ∧
        v.is_blacklisted =
          (if u.id = target then !u.is_blacklisted else u.is_blacklisted))
        db.users (toggle_blacklist s target db).2.users
    ∧ ((toggle_blacklist s target (toggle_blacklist s target db).2).2 = db) := by
  subst hs
  have hrun : toggle_blacklist (some auid) target db =
      (.toggled, { db with users := db.users.map (flipBlacklist target) }) := by
    simp [toggle_blacklist, ha, hadm, ht]
  have hq : ∀ u : User, ((flipBlacklist target u).id == auid) = (u.id == auid) := by
    intro u; rw [flipBlacklist_id]
  have hq2 : ∀ u : User, ((flipBlacklist target u).id == target) = (u.id == target) := by
    intro u; rw [flipBlacklist_id]
  refine ⟨by rw [hrun], by rw [hrun], by rw [hrun], ?_, ?_⟩
  · rw [hrun]
    refine forall₂_map_of_rel _ _ ?_ db.users
    intro u
    unfold flipBlacklist
    by_cases h : u.id = target
    · simp [h]
    · simp [h]
  · rw [hrun]
    have ha2 : findUser { db with users := db.users.map (flipBlacklist target) } auid =
        some (flipBlacklist target a) := by
      unfold findUser at ha ⊢
      simp only
      rw [find?_map_of_pred_invariant (flipBlacklist target) _ hq, ha]
      rfl
    have ht2 : findUser { db with users := db.users.map (flipBlacklist target) } target =
        some (flipBlacklist target t0) := by
      unfold findUser at ht ⊢
      simp only
      rw [find?_map_of_pred_invariant (flipBlacklist target) _ hq2, ht]
      rfl
    have hadm2 : (flipBlacklist target a).is_admin = true := by
      rw [flipBlacklist_is_admin]; exact hadm
    simp [toggle_blacklist, ha2, hadm2, ht2]
    rw [← List.map_map, map_flipBlacklist_flipBlacklist]

/-- Witness for C10: toggling user 2 twice from admin 1's session
restores the original store. -/
theorem C10_witness :
    (toggle_blacklist (some 1) 2
        (toggle_blacklist (some 1) 2
          (DB.mk [User.mk 1 "a@b.c" "pw" false true,
                  User.mk 2 "b@b.c" "pw" false false] [] [])).2).2 =
      DB.mk [User.mk 1 "a@b.c" "pw" false true,
             User.mk 2 "b@b.c" "pw" false false] [] [] :=
  (C10_toggle_blacklist_frame_involution (some 1) 1 2
    (DB.mk [User.mk 1 "a@b.c" "pw" false true,
            User.mk 2 "b@b.c" "pw" false false] [] [])
    (User.mk 1 "a@b.c" "pw" false true)
    (User.mk 2 "b@b.c" "pw" false false)
    rfl rfl rfl rfl).2.2.2.2

end FlaskBlog

namespace FlaskBlog

/-- C5 (amended): for every non-admin User with an existing Comment on a
Post, any further valid comment submission by that User on that Post is
rejected with no second Comment row created, and — when the User is not
blacklisted — the rejection is the duplicate-comment Conflict outcome,
regardless of the submitted text. -/
theorem C5_duplicate_comment_rejected (uid post_id : Nat) (text : String)
    (n₁ n₂ : Nat) (db : DB) (p : Post) (u : User) (c : Comment)
    (hp : findPost db post_id = some p) (hu : findUser db uid = some u)
    (hadm : u.is_admin = false) (hc : c ∈ db.comments)
    (hcu : c.user_id = uid) (hcp : c.post_id = post_id)
    (htext : text ≠ "") :
    ((get_post (some uid) post_id true text n₁ n₂ db).2 = db)
    ∧ (u.is_blacklisted = false →
        get_post (some uid) post_id true text n₁ n₂ db =
          (.duplicate post_id, db)) := by
  have hid : p.id = post_id := findPost_id hp
  have hv : commentForm_validate text = true := by
    simp [commentForm_validate, inputRequired, htext]
  have hany : db.comments.any
      (fun x => x.user_id == uid && x.post_id == p.id) = true := by
    refine List.any_eq_true.mpr ⟨c, hc, ?_⟩
    simp [hcu, hcp, hid]
  cases hb : u.is_blacklisted with
  | true => simp [get_post, hp, hu, hv, hb]
  | false => simp [get_post, hp, hu, hv, hb, hadm, hany]

/-- Counterexample to C5 as stated: a blacklisted non-admin user with an
existing comment on the post is rejected with the blacklist outcome, not
the duplicate-comment Conflict outcome the claim promises for every
non-admin user with an existing comment. -/
theorem C5_counterexample :
    ((findUser (DB.mk [User.mk 2 "b@b.c" "pw" true false]
        [Post.mk 1 "t" "c" "" none 0] [Comment.mk 1 "old" 2 1 0]) 2).map
      (fun u => u.is_admin) = some false)
    ∧ (Comment.mk 1 "old" 2 1 0 ∈
        (DB.mk [User.mk 2 "b@b.c" "pw" true false]
          [Post.mk 1 "t" "c" "" none 0] [Comment.mk 1 "old" 2 1 0]).comments)
    ∧ ((get_post (some 2) 1 true "new" 9 9
        (DB.mk [User.mk 2 "b@b.c" "pw" true false]
          [Post.mk 1 "t" "c" "" none 0] [Comment.mk 1 "old" 2 1 0])).1 =
        .blocked 1)
    ∧ ((get_post (some 2) 1 true "new" 9 9
        (DB.mk [User.mk 2 "b@b.c" "pw" true false]
          [Post.mk 1 "t" "c" "" none 0] [Comment.mk 1 "old" 2 1 0])).1 ≠
        .duplicate 1) := by
  refine ⟨rfl, ?_, rfl, ?_⟩
  · simp
  · decide

/-- Witness for C5: a non-blacklisted non-admin user with an existing
comment is turned away with the duplicate outcome and the store is
unchanged. -/
theorem C5_witness :
    get_post (some 2) 1 true "again" 9 9
        (DB.mk [User.mk 2 "b@b.c" "pw" false false]
          [Post.mk 1 "t" "c" "" none 0] [Comment.mk 1 "old" 2 1 0]) =
      (.duplicate 1,
       DB.mk [User.mk 2 "b@b.c" "pw" false false]
         [Post.mk 1 "t" "c" "" none 0] [Comment.mk 1 "old" 2 1 0]) :=
  (C5_duplicate_comment_rejected 2 1 "again" 9 9
    (DB.mk [User.mk 2 "b@b.c" "pw" false false]
      [Post.mk 1 "t" "c" "" none 0] [Comment.mk 1 "old" 2 1 0])
    (Post.mk 1 "t" "c" "" none 0) (User.mk 2 "b@b.c" "pw" false false)
    (Comment.mk 1 "old" 2 1 0) rfl rfl rfl (by simp) rfl rfl
    (by decide)).2 rfl

/-- C7: every denied or Conflict-terminated request — duplicate email at
registration, blacklist-blocked or duplicate comment, and the
unauthenticated/non-admin denials of the post, comment and blacklist
handlers — leaves the User, Post and Comment stores exactly as they
were. -/
theorem C7_denial_no_partial_mutation (s : Option Nat)
    (submitted email_format_ok : Bool)
    (email password text title content image_url : String)
    (n₁ n₂ post_id comment_id : Nat) (db : DB) :
    ((register s submitted email email_format_ok password n₁ db).1 = .emailInUse →
      (register s submitted email email_format_ok password n₁ db).2 = db)
    ∧ ((get_post s post_id submitted text n₁ n₂ db).1 = .blocked post_id →
      (get_post s post_id submitted text n₁ n₂ db).2 = db)
    ∧ ((get_post s post_id submitted text n₁ n₂ db).1 = .duplicate post_id →
      (get_post s post_id submitted text n₁ n₂ db).2 = db)
    ∧ ((create_post s submitted title content image_url n₁ n₂ db).1 = .loginRedirect →
      (create_post s submitted title content image_url n₁ n₂ db).2 = db)
    ∧ ((create_post s submitted title content image_url n₁ n₂ db).1 = .forbidden →
      (create_post s submitted title content image_url n₁ n₂ db).2 = db)
    ∧ ((delete_comment s post_id comment_id db).1 = .loginRedirect →
      (delete_comment s post_id comment_id db).2 = db)
    ∧ ((delete_comment s post_id comment_id db).1 = .forbidden post_id →
      (delete_comment s post_id comment_id db).2 = db)
    ∧ ((delete_post s post_id db).1 = .loginRedirect →
      (delete_post s post_id db).2 = db)
    ∧ ((delete_post s post_id db).1 = .forbidden →
      (delete_post s post_id db).2 = db)
    ∧ ((edit_post s post_id submitted title content image_url db).1 = .loginRedirect →
      (edit_post s post_id submitted title content image_url db).2 = db)
    ∧ ((edit_post s post_id submitted title content image_url db).1 = .forbidden →
      (edit_post s post_id submitted title content image_url db).2 = db)
    ∧ ((toggle_blacklist s n₁ db).1 = .unauthorized →
      (toggle_blacklist s n₁ db).2 = db) := by
  refine ⟨?_, ?_, ?_, ?_, ?_, ?_, ?_, ?_, ?_, ?_, ?_, ?_⟩
  · unfold register
    repeat' split
    all_goals simp
  · unfold get_post
    repeat' split
    all_goals simp
  · unfold get_post
    repeat' split
    all_goals simp
  · unfold create_post
    repeat' split
    all_goals simp
  · unfold create_post
    repeat' split
    all_goals simp
  · unfold delete_comment
    repeat' split
    all_goals simp
  · unfold delete_comment
    repeat' split
    all_goals simp
  · unfold delete_post
    repeat' split
    all_goals simp
  · unfold delete_post
    repeat' split
    all_goals simp
  · unfold edit_post
    repeat' split
    all_goals simp
  · unfold edit_post
    repeat' split
    all_goals simp
  · unfold toggle_blacklist
    repeat' split
    all_goals simp

/-- Witness for C7: a registration with an already-used email is
rejected and the store is unchanged. -/
theorem C7_witness :
    (register none true "a@b.c" true "12345" 9
        (DB.mk [User.mk 1 "a@b.c" "pw" false false] [] [])).2 =
      DB.mk [User.mk 1 "a@b.c" "pw" false false] [] [] :=
  (C7_denial_no_partial_mutation none true true "a@b.c" "12345" "t" "t" "c"
    "" 9 9 1 1 (DB.mk [User.mk 1 "a@b.c" "pw" false false] [] [])).1
    (by decide)

/-- C8 (amended): every Post accepted through the create or edit
handlers has a non-empty title and non-empty content, and a submission
with an empty title or content is rejected before any mutation; the
form performs no length validation (the 100/500-character limits are
schema column sizes only, see the counterexample). -/
theorem C8_form_validation_non_empty (s : Option Nat)
    (title content image_url : String) (n₁ n₂ post_id : Nat) (db : DB) :
    ((create_post s true title content image_url n₁ n₂ db).1 = .created →
      title ≠ "" ∧ content ≠ "")
    ∧ ((title = "" ∨ content = "") →
      (create_post s true title content image_url n₁ n₂ db).1 ≠ .created ∧
      (create_post s true title content image_url n₁ n₂ db).2 = db)
    ∧ ((edit_post s post_id true title content image_url db).1 = .updated →
      title ≠ "" ∧ content ≠ "")
    ∧ ((title = "" ∨ content = "") →
      (edit_post s post_id true title content image_url db).1 ≠ .updated ∧
      (edit_post s post_id true title content image_url db).2 = db) := by
  by_cases hv : postForm_validate title content image_url = true
  · have hne : title ≠ "" ∧ content ≠ "" := by
      simpa [postForm_validate, inputRequired] using hv
    refine ⟨fun _ => hne, ?_, fun _ => hne, ?_⟩
    · rintro (h | h)
      · exact absurd h hne.1
      · exact absurd h hne.2
    · rintro (h | h)
      · exact absurd h hne.1
      · exact absurd h hne.2
  · have hvf : postForm_validate title content image_url = false := by
      simpa using hv
    refine ⟨?_, fun _ => ?_, ?_, fun _ => ?_⟩
    · intro h
      exfalso
      revert h
      unfold create_post
      repeat' split
      all_goals simp_all [hvf]
    · constructor
      · unfold create_post
        repeat' split
        all_goals simp_all [hvf]
      · unfold create_post
        repeat' split
        all_goals simp_all [hvf]
    · intro h
      exfalso
      revert h
      unfold edit_post
      repeat' split
      all_goals simp_all [hvf]
    · constructor
      · unfold edit_post
        repeat' split
        all_goals simp_all [hvf]
      · unfold edit_post
        repeat' split
        all_goals simp_all [hvf]

set_option maxRecDepth 10000 in
/-- Counterexample to C8 as stated: a 101-character title and a
501-character image URL pass `PostForm` validation, which carries no
`Length` validators — the claimed 100/500-character limits are not
enforced by form validation. -/
theorem C8_counterexample :
    (postForm_validate "aaaaaaaaaaaaaaaaaaaaaaaaaaaaaaaaaaaaaaaaaaaaaaaaaaaaaaaaaaaaaaaaaaaaaaaaaaaaaaaaaaaaaaaaaaaaaaaaaaaaa" "body" "uuuuuuuuuuuuuuuuuuuuuuuuuuuuuuuuuuuuuuuuuuuuuuuuuuuuuuuuuuuuuuuuuuuuuuuuuuuuuuuuuuuuuuuuuuuuuuuuuuuuuuuuuuuuuuuuuuuuuuuuuuuuuuuuuuuuuuuuuuuuuuuuuuuuuuuuuuuuuuuuuuuuuuuuuuuuuuuuuuuuuuuuuuuuuuuuuuuuuuuuuuuuuuuuuuuuuuuuuuuuuuuuuuuuuuuuuuuuuuuuuuuuuuuuuuuuuuuuuuuuuuuuuuuuuuuuuuuuuuuuuuuuuuuuuuuuuuuuuuuuuuuuuuuuuuuuuuuuuuuuuuuuuuuuuuuuuuuuuuuuuuuuuuuuuuuuuuuuuuuuuuuuuuuuuuuuuuuuuuuuuuuuuuuuuuuuuuuuuuuuuuuuuuuuuuuuuuuuuuuuuuuuuuuuuuuuuuuuuuuuuuuuuuuuuuuuuuuuuuuuuuuuuuuuuuuuuuuuuuuuuuuuuuuuuuuuuuuuuuuuu" = true)
    ∧ (("aaaaaaaaaaaaaaaaaaaaaaaaaaaaaaaaaaaaaaaaaaaaaaaaaaaaaaaaaaaaaaaaaaaaaaaaaaaaaaaaaaaaaaaaaaaaaaaaaaaaa" : String).length = 101)
    ∧ (("uuuuuuuuuuuuuuuuuuuuuuuuuuuuuuuuuuuuuuuuuuuuuuuuuuuuuuuuuuuuuuuuuuuuuuuuuuuuuuuuuuuuuuuuuuuuuuuuuuuuuuuuuuuuuuuuuuuuuuuuuuuuuuuuuuuuuuuuuuuuuuuuuuuuuuuuuuuuuuuuuuuuuuuuuuuuuuuuuuuuuuuuuuuuuuuuuuuuuuuuuuuuuuuuuuuuuuuuuuuuuuuuuuuuuuuuuuuuuuuuuuuuuuuuuuuuuuuuuuuuuuuuuuuuuuuuuuuuuuuuuuuuuuuuuuuuuuuuuuuuuuuuuuuuuuuuuuuuuuuuuuuuuuuuuuuuuuuuuuuuuuuuuuuuuuuuuuuuuuuuuuuuuuuuuuuuuuuuuuuuuuuuuuuuuuuuuuuuuuuuuuuuuuuuuuuuuuuuuuuuuuuuuuuuuuuuuuuuuuuuuuuuuuuuuuuuuuuuuuuuuuuuuuuuuuuuuuuuuuuuuuuuuuuuuuuuuuuuuuuuu" : String).length = 501) := by
  refine ⟨rfl, rfl, rfl⟩

/-- Witness for C8: a submission with an empty title is rejected by the
create handler with no mutation. -/
theorem C8_witness :
    (create_post (some 1) true "" "C" "" 2 5
        (DB.mk [User.mk 1 "a@b.c" "pw" false true] [] [])).1 ≠ .created ∧
    (create_post (some 1) true "" "C" "" 2 5
        (DB.mk [User.mk 1 "a@b.c" "pw" false true] [] [])).2 =
      DB.mk [User.mk 1 "a@b.c" "pw" false true] [] [] :=
  (C8_form_validation_non_empty (some 1) "" "C" "" 2 5 1
    (DB.mk [User.mk 1 "a@b.c" "pw" false true] [] [])).2.1 (Or.inl rfl)

end FlaskBlog
